import Mathlib

/-!
Verification of `generate_icons.py` (NullVoidKage/fitness).

The script has two parts:
* `create_family_health_icon(size)`: builds an RGBA image of dimensions
  `size × size` by a fixed sequence of Pillow drawing calls (ellipses,
  rounded rectangles, a polygon, rectangles), each coordinate being
  `int(c * scale)` with `scale = size / 1024.0`.
* `main()`: iterates a hardcoded list of `(size, filename)` pairs, calls the
  renderer on `int(size)` and saves a PNG per entry.

Embedding notes.
* Colors are RGBA quadruples of naturals.
* An image is its dimensions plus a pixel map `Int → Int → Color`; Pillow's
  draw calls write the fill color directly into covered pixels (no alpha
  blending), which `drawRegion` mirrors.
* In Python, `size / 1024.0` is exact in binary floating point (division of a
  small integer by a power of two), and `c * (size / 1024.0)` with the small
  constants `c` used here is again exact, so `int(c * scale)` equals the
  integer division `c * size / 1024` for every natural `size`.  `scaled`
  embeds that computation.
-/

abbrev Color := Nat × Nat × Nat × Nat

structure Image where
  width : Nat
  height : Nat
  pix : Int → Int → Color

/-- A freshly created canvas: the RGBA image of the requested dimensions with
every pixel transparent `(0, 0, 0, 0)`, as `Image.new` creates it. -/
def blankImage (size : Nat) : Image :=
  { width := size, height := size, pix := fun _ _ => (0, 0, 0, 0) }

/-- Modelled from the spec: a Pillow fill draw writes the fill color directly
into every pixel of the covered region (later draws occlude earlier ones; no
alpha blending is performed). -/
def drawRegion (img : Image) (inR : Int → Int → Bool) (c : Color) : Image :=
  { img with pix := fun x y => if inR x y then c else img.pix x y }

/-- The source's `int(a * (size / 1024.0))`: exact in floating point for the
constants involved, hence equal to the floor of the rational `a * size / 1024`. -/
def scaled (a size : Nat) : Nat := a * size / 1024

/-- Pixels of the axis-aligned rectangle with corners `(x0, y0)` and
`(x1, y1)`, both corners included (Pillow's `rectangle`). -/
def rectB (x0 y0 x1 y1 x y : Int) : Bool :=
  decide (x0 ≤ x) && decide (x ≤ x1) && decide (y0 ≤ y) && decide (y ≤ y1)

/-- Modelled from the spec: pixels of the filled ellipse inscribed in the
bounding box `[x0, y0, x1, y1]` (Pillow's `ellipse`), i.e. the points of the
box satisfying the ellipse inequality about the box center. -/
def ellipseB (x0 y0 x1 y1 x y : Int) : Bool :=
  rectB x0 y0 x1 y1 x y &&
    decide ((2 * x - (x0 + x1)) ^ 2 * (y1 - y0) ^ 2
      + (2 * y - (y0 + y1)) ^ 2 * (x1 - x0) ^ 2 ≤ (x1 - x0) ^ 2 * (y1 - y0) ^ 2)

/-- Pixels of the closed disc of radius `r` centered at `(cx, cy)`. -/
def discB (cx cy r x y : Int) : Bool :=
  decide ((x - cx) ^ 2 + (y - cy) ^ 2 ≤ r ^ 2)

/-- Modelled from the spec: pixels of a filled rounded rectangle with bounding
box `[x0, y0, x1, y1]` and corner radius `r` (Pillow's `rounded_rectangle`):
the two full-width/full-height inner rectangles together with the four
quarter-disc corners. -/
def rrectB (x0 y0 x1 y1 r x y : Int) : Bool :=
  rectB x0 y0 x1 y1 x y &&
    (rectB (x0 + r) y0 (x1 - r) y1 x y || rectB x0 (y0 + r) x1 (y1 - r) x y ||
      discB (x0 + r) (y0 + r) r x y || discB (x1 - r) (y0 + r) r x y ||
      discB (x0 + r) (y1 - r) r x y || discB (x1 - r) (y1 - r) r x y)

/-- Modelled from the spec: pixels of the filled triangle with vertices
`(x1, y1)`, `(x2, y2)`, `(x3, y3)` (Pillow's `polygon` on three points):
points of the bounding box whose three edge cross products share a sign. -/
def triB (x1 y1 x2 y2 x3 y3 x y : Int) : Bool :=
  rectB (min x1 (min x2 x3)) (min y1 (min y2 y3))
      (max x1 (max x2 x3)) (max y1 (max y2 y3)) x y &&
    (let s1 := (x2 - x1) * (y - y1) - (y2 - y1) * (x - x1)
     let s2 := (x3 - x2) * (y - y2) - (y3 - y2) * (x - x2)
     let s3 := (x1 - x3) * (y - y3) - (y1 - y3) * (x - x3)
     (decide (0 ≤ s1) && decide (0 ≤ s2) && decide (0 ≤ s3)) ||
       (decide (s1 ≤ 0) && decide (s2 ≤ 0) && decide (s3 ≤ 0)))

/-! The fill colors of the script. -/

def bg_color : Color := (74, 144, 226, 255)
def white : Color := (255, 255, 255, 230)
def heart_color : Color := (255, 107, 107, 255)
def cross_color : Color := (255, 255, 255, 230)

/-! One region per drawing call of `create_family_health_icon`, in source
order, with the coordinate arithmetic of the source. -/

/-- Background disc: `draw.ellipse([0, 0, size, size], fill=bg_color)`. -/
def bgRegion (size : Nat) (x y : Int) : Bool :=
  ellipseB 0 0 size size x y

/-- Parent 1 head: disc at `(int(300*scale), int(400*scale))`, radius `int(60*scale)`. -/
def parent1HeadRegion (size : Nat) (x y : Int) : Bool :=
  let px : Int := scaled 300 size
  let py : Int := scaled 400 size
  let r : Int := scaled 60 size
  ellipseB (px - r) (py - r) (px + r) (py + r) x y

/-- Parent 1 body: rounded rectangle at `(int(270*scale), int(460*scale))`,
size `int(60*scale) × int(120*scale)`, corner radius `int(30*scale)`. -/
def parent1BodyRegion (size : Nat) (x y : Int) : Bool :=
  let bx : Int := scaled 270 size
  let bY : Int := scaled 460 size
  rrectB bx bY (bx + scaled 60 size) (bY + scaled 120 size) (scaled 30 size) x y

/-- Parent 2 head: disc at `(int(724*scale), int(400*scale))`, radius `int(60*scale)`. -/
def parent2HeadRegion (size : Nat) (x y : Int) : Bool :=
  let px : Int := scaled 724 size
  let py : Int := scaled 400 size
  let r : Int := scaled 60 size
  ellipseB (px - r) (py - r) (px + r) (py + r) x y

/-- Parent 2 body: rounded rectangle at `(int(694*scale), int(460*scale))`,
size `int(60*scale) × int(120*scale)`, corner radius `int(30*scale)`. -/
def parent2BodyRegion (size : Nat) (x y : Int) : Bool :=
  let bx : Int := scaled 694 size
  let bY : Int := scaled 460 size
  rrectB bx bY (bx + scaled 60 size) (bY + scaled 120 size) (scaled 30 size) x y

/-- Child 1 head: disc at `(int(400*scale), int(500*scale))`, radius `int(40*scale)`. -/
def child1HeadRegion (size : Nat) (x y : Int) : Bool :=
  let px : Int := scaled 400 size
  let py : Int := scaled 500 size
  let r : Int := scaled 40 size
  ellipseB (px - r) (py - r) (px + r) (py + r) x y

/-- Child 1 body: rounded rectangle at `(int(380*scale), int(540*scale))`,
size `int(40*scale) × int(80*scale)`, corner radius `int(20*scale)`. -/
def child1BodyRegion (size : Nat) (x y : Int) : Bool :=
  let bx : Int := scaled 380 size
  let bY : Int := scaled 540 size
  rrectB bx bY (bx + scaled 40 size) (bY + scaled 80 size) (scaled 20 size) x y

/-- Child 2 head: disc at `(int(624*scale), int(500*scale))`, radius `int(40*scale)`. -/
def child2HeadRegion (size : Nat) (x y : Int) : Bool :=
  let px : Int := scaled 624 size
  let py : Int := scaled 500 size
  let r : Int := scaled 40 size
  ellipseB (px - r) (py - r) (px + r) (py + r) x y

/-- Child 2 body: rounded rectangle at `(int(604*scale), int(540*scale))`,
size `int(40*scale) × int(80*scale)`, corner radius `int(20*scale)`. -/
def child2BodyRegion (size : Nat) (x y : Int) : Bool :=
  let bx : Int := scaled 604 size
  let bY : Int := scaled 540 size
  rrectB bx bY (bx + scaled 40 size) (bY + scaled 80 size) (scaled 20 size) x y

/-- First heart lobe: `draw.ellipse([heart_left, heart_top, heart_x, heart_y])`
with `heart_x = int(512*scale)`, `heart_y = int(650*scale)`,
`heart_size = int(60*scale)`, `heart_left = heart_x - heart_size`,
`heart_top = heart_y - heart_size`. -/
def heartEllipse1Region (size : Nat) (x y : Int) : Bool :=
  let hx : Int := scaled 512 size
  let hy : Int := scaled 650 size
  let hs : Int := scaled 60 size
  ellipseB (hx - hs) (hy - hs) hx hy x y

/-- Second heart lobe: `draw.ellipse([heart_x, heart_top, heart_right, heart_y])`. -/
def heartEllipse2Region (size : Nat) (x y : Int) : Bool :=
  let hx : Int := scaled 512 size
  let hy : Int := scaled 650 size
  let hs : Int := scaled 60 size
  ellipseB hx (hy - hs) (hx + hs) hy x y

/-- Heart point: `draw.polygon([heart_x, heart_y, heart_left, heart_bottom,
heart_right, heart_bottom])`. -/
def heartTriRegion (size : Nat) (x y : Int) : Bool :=
  let hx : Int := scaled 512 size
  let hy : Int := scaled 650 size
  let hs : Int := scaled 60 size
  triB hx hy (hx - hs) (hy + hs) (hx + hs) (hy + hs) x y

/-- Cross vertical bar: `draw.rectangle([cross_x, cross_y, cross_x + cross_w,
cross_y + cross_h])` with `cross_x = int(500*scale)`, `cross_y = int(520*scale)`,
`cross_w = int(24*scale)`, `cross_h = int(80*scale)`. -/
def crossVRegion (size : Nat) (x y : Int) : Bool :=
  let cx : Int := scaled 500 size
  let cy : Int := scaled 520 size
  rectB cx cy (cx + scaled 24 size) (cy + scaled 80 size) x y

/-- Cross horizontal bar: `draw.rectangle([cross_x - int(20*scale),
cross_y + int(20*scale), cross_x + cross_h_w - int(20*scale),
cross_y + int(20*scale) + cross_h_h])` with `cross_h_w = int(64*scale)`,
`cross_h_h = int(24*scale)`. -/
def crossHRegion (size : Nat) (x y : Int) : Bool :=
  let cx : Int := scaled 500 size
  let cy : Int := scaled 520 size
  rectB (cx - scaled 20 size) (cy + scaled 20 size)
    (cx + scaled 64 size - scaled 20 size) (cy + scaled 20 size + scaled 24 size) x y

/-- The renderer `create_family_health_icon(size)`: the fourteen drawing calls
of the source, in source order, on a fresh transparent canvas. -/
def create_family_health_icon (size : Nat) : Image :=
  let img := blankImage size
  let img := drawRegion img (bgRegion size) bg_color
  let img := drawRegion img (parent1HeadRegion size) white
  let img := drawRegion img (parent1BodyRegion size) white
  let img := drawRegion img (parent2HeadRegion size) white
  let img := drawRegion img (parent2BodyRegion size) white
  let img := drawRegion img (child1HeadRegion size) white
  let img := drawRegion img (child1BodyRegion size) white
  let img := drawRegion img (child2HeadRegion size) white
  let img := drawRegion img (child2BodyRegion size) white
  let img := drawRegion img (heartEllipse1Region size) heart_color
  let img := drawRegion img (heartEllipse2Region size) heart_color
  let img := drawRegion img (heartTriRegion size) heart_color
  let img := drawRegion img (crossVRegion size) cross_color
  let img := drawRegion img (crossHRegion size) cross_color
  img

/-- The union of the three heart drawing calls: the heart shape the code draws. -/
def heartRegion (size : Nat) (x y : Int) : Bool :=
  heartEllipse1Region size x y || heartEllipse2Region size x y || heartTriRegion size x y

/-- The union of the two cross drawing calls: the cross shape the code draws. -/
def crossRegion (size : Nat) (x y : Int) : Bool :=
  crossVRegion size x y || crossHRegion size x y

/-- The fourteen drawn layers with their fill colors, topmost (last drawn)
first: the same draws as `create_family_health_icon`, in reverse source
order. -/
def layers (size : Nat) : List ((Int → Int → Bool) × Color) :=
  [(crossHRegion size, cross_color), (crossVRegion size, cross_color),
   (heartTriRegion size, heart_color), (heartEllipse2Region size, heart_color),
   (heartEllipse1Region size, heart_color),
   (child2BodyRegion size, white), (child2HeadRegion size, white),
   (child1BodyRegion size, white), (child1HeadRegion size, white),
   (parent2BodyRegion size, white), (parent2HeadRegion size, white),
   (parent1BodyRegion size, white), (parent1HeadRegion size, white),
   (bgRegion size, bg_color)]

/-- A pixel is covered by some drawn shape when some layer's region holds. -/
def coveredRegion (size : Nat) (x y : Int) : Bool :=
  (layers size).any fun l => l.1 x y

/-- First-match color lookup over a stack of layers (topmost first): the value
a pixel has after the whole stack has been drawn bottom-up over `base`. -/
def topPix (L : List ((Int → Int → Bool) × Color)) (base : Color) (x y : Int) : Color :=
  match L with
  | [] => base
  | l :: rest => if l.1 x y then l.2 else topPix rest base x y

/-! Regions written down from the specification's own words, for comparison
with the regions the code draws. -/

/-- The heart as the spec describes it: two discs of radius `60·s` centered at
`(452·s, 590·s)` and `(572·s, 590·s)`, plus the triangle with vertices
`(512·s, 650·s)`, `(452·s, 710·s)`, `(572·s, 710·s)` (coordinates truncated). -/
def heartRegionClaimed (size : Nat) (x y : Int) : Bool :=
  discB (scaled 452 size) (scaled 590 size) (scaled 60 size) x y ||
    discB (scaled 572 size) (scaled 590 size) (scaled 60 size) x y ||
    triB (scaled 512 size) (scaled 650 size) (scaled 452 size) (scaled 710 size)
      (scaled 572 size) (scaled 710 size) x y

/-- The cross vertical bar as the spec describes it: the rectangle from
`(⌊500·s⌋, ⌊520·s⌋)` to `(⌊524·s⌋, ⌊600·s⌋)`. -/
def crossVRegionClaimed (size : Nat) (x y : Int) : Bool :=
  rectB (scaled 500 size) (scaled 520 size) (scaled 524 size) (scaled 600 size) x y

/-- The cross horizontal bar as the spec describes it: the rectangle from
`(⌊480·s⌋, ⌊540·s⌋)` to `(⌊544·s⌋, ⌊564·s⌋)`. -/
def crossHRegionClaimed (size : Nat) (x y : Int) : Bool :=
  rectB (scaled 480 size) (scaled 540 size) (scaled 544 size) (scaled 564 size) x y

/-- The corner pixel `(0, 0)` (center `(0.5, 0.5)`) lies strictly outside the
disc inscribed in the `size × size` canvas (center `(size/2, size/2)`, radius
`size/2`): clearing denominators, `size² < 2·(size − 1)²`. -/
def cornerOutsideDisc (size : Nat) : Bool :=
  decide (size ^ 2 < 2 * (size - 1) ^ 2)

/-! The fallible renderer: the same drawing calls, each primitive checked for
the precondition under which it succeeds. -/

/-- Modelled from the spec: a bounding-box primitive (`ellipse`, `rectangle`,
`rounded_rectangle`) succeeds when the box is well ordered (`x0 ≤ x1` and
`y0 ≤ y1`) and raises otherwise. -/
def checkedDraw (img : Image) (x0 y0 x1 y1 : Int) (inR : Int → Int → Bool)
    (c : Color) : Except String Image :=
  if x1 < x0 then .error "x1 must be greater than or equal to x0"
  else if y1 < y0 then .error "y1 must be greater than or equal to y0"
  else .ok (drawRegion img inR c)

/-- Pillow's `polygon` succeeds on any vertex list. -/
def polygonDraw (img : Image) (inR : Int → Int → Bool) (c : Color) :
    Except String Image :=
  .ok (drawRegion img inR c)

/-- The renderer with every drawing primitive checked: each call carries the
bounding box the source passes to Pillow. -/
def create_family_health_icon_checked (size : Nat) : Except String Image := do
  let img := blankImage size
  let img ← checkedDraw img 0 0 size size (bgRegion size) bg_color
  let p1x : Int := scaled 300 size
  let p1y : Int := scaled 400 size
  let p1r : Int := scaled 60 size
  let img ← checkedDraw img (p1x - p1r) (p1y - p1r) (p1x + p1r) (p1y + p1r)
    (parent1HeadRegion size) white
  let p1bx : Int := scaled 270 size
  let p1by : Int := scaled 460 size
  let img ← checkedDraw img p1bx p1by (p1bx + scaled 60 size) (p1by + scaled 120 size)
    (parent1BodyRegion size) white
  let p2x : Int := scaled 724 size
  let p2y : Int := scaled 400 size
  let p2r : Int := scaled 60 size
  let img ← checkedDraw img (p2x - p2r) (p2y - p2r) (p2x + p2r) (p2y + p2r)
    (parent2HeadRegion size) white
  let p2bx : Int := scaled 694 size
  let p2by : Int := scaled 460 size
  let img ← checkedDraw img p2bx p2by (p2bx + scaled 60 size) (p2by + scaled 120 size)
    (parent2BodyRegion size) white
  let c1x : Int := scaled 400 size
  let c1y : Int := scaled 500 size
  let c1r : Int := scaled 40 size
  let img ← checkedDraw img (c1x - c1r) (c1y - c1r) (c1x + c1r) (c1y + c1r)
    (child1HeadRegion size) white
  let c1bx : Int := scaled 380 size
  let c1by : Int := scaled 540 size
  let img ← checkedDraw img c1bx c1by (c1bx + scaled 40 size) (c1by + scaled 80 size)
    (child1BodyRegion size) white
  let c2x : Int := scaled 624 size
  let c2y : Int := scaled 500 size
  let c2r : Int := scaled 40 size
  let img ← checkedDraw img (c2x - c2r) (c2y - c2r) (c2x + c2r) (c2y + c2r)
    (child2HeadRegion size) white
  let c2bx : Int := scaled 604 size
  let c2by : Int := scaled 540 size
  let img ← checkedDraw img c2bx c2by (c2bx + scaled 40 size) (c2by + scaled 80 size)
    (child2BodyRegion size) white
  let hx : Int := scaled 512 size
  let hy : Int := scaled 650 size
  let hs : Int := scaled 60 size
  let img ← checkedDraw img (hx - hs) (hy - hs) hx hy
    (heartEllipse1Region size) heart_color
  let img ← checkedDraw img hx (hy - hs) (hx + hs) hy
    (heartEllipse2Region size) heart_color
  let img ← polygonDraw img (heartTriRegion size) heart_color
  let crx : Int := scaled 500 size
  let cry : Int := scaled 520 size
  let img ← checkedDraw img crx cry (crx + scaled 24 size) (cry + scaled 80 size)
    (crossVRegion size) cross_color
  let img ← checkedDraw img (crx - scaled 20 size) (cry + scaled 20 size)
    (crx + scaled 64 size - scaled 20 size) (cry + scaled 20 size + scaled 24 size)
    (crossHRegion size) cross_color
  return img

/-! The batch step `main()`. -/

/-- Run-dependent ambient data a process could observe.  The source reads none
of it: no clock, no random source, no environment variables. -/
structure Env where
  clock : Nat
  rngSeed : Nat

/-- Modelled from the spec: PNG encoding embeds no timestamps or randomness —
the encoded bytes are a deterministic function of the raster content.  We
serialize the pixel grid row-major. -/
def encodePNG (img : Image) : List Color :=
  (List.range img.height).flatMap fun y =>
    (List.range img.width).map fun x => img.pix x y

/-- The hardcoded `icon_sizes` list of `main`, sizes as exact numerals. -/
def icon_sizes : List (ℚ × String) :=
  [(20, "icon_20.png"), (29, "icon_29.png"), (40, "icon_40.png"),
   (60, "icon_60.png"), (76, "icon_76.png"), (83.5, "icon_83.5.png"),
   (120, "icon_120.png"), (152, "icon_152.png"), (167, "icon_167.png"),
   (1024, "icon_1024.png")]

def output_dir : String := "RecipeApp/Assets.xcassets/AppIcon.appiconset"

/-- Python's `int()` on a non-negative number: truncation toward zero. -/
def pyInt (q : ℚ) : Nat := (Int.floor q).toNat

/-- The images `main` renders, paired with their filenames, in order:
`create_family_health_icon(int(size))` for each list entry. -/
def mainImages : List (String × Image) :=
  icon_sizes.map fun p => (p.2, create_family_health_icon (pyInt p.1))

/-- One whole run of `main` in ambient environment `e`: the files it writes,
as (path, encoded bytes) pairs.  The body never consults `e`: the source calls
no clock, RNG, or environment read. -/
def mainRun (_e : Env) : List (String × List Color) :=
  mainImages.map fun p => (output_dir ++ "/" ++ p.1, encodePNG p.2)

/-! General lemmas about first-match lookup over layer stacks, the bridge from
the renderer to `topPix`, and the preserved image dimensions. -/

lemma topPix_cons (l : (Int → Int → Bool) × Color) (rest : List ((Int → Int → Bool) × Color))
    (base : Color) (x y : Int) :
    topPix (l :: rest) base x y = if l.1 x y then l.2 else topPix rest base x y := rfl

lemma topPix_append (L₁ L₂ : List ((Int → Int → Bool) × Color)) (base : Color) (x y : Int) :
    topPix (L₁ ++ L₂) base x y = topPix L₁ (topPix L₂ base x y) x y := by
  induction L₁ with
  | nil => rfl
  | cons l rest ih => simp only [List.cons_append, topPix_cons, ih]

lemma topPix_of_none (L : List ((Int → Int → Bool) × Color)) (base : Color) (x y : Int)
    (h : ∀ l ∈ L, l.1 x y = false) : topPix L base x y = base := by
  induction L with
  | nil => rfl
  | cons l rest ih =>
      rw [topPix_cons, if_neg (by simp [h l (by simp)]), ih]
      intro l' hl'
      exact h l' (by simp [hl'])

lemma topPix_mem (L : List ((Int → Int → Bool) × Color)) (base : Color) (x y : Int) :
    topPix L base x y = base ∨ ∃ l ∈ L, topPix L base x y = l.2 := by
  induction L with
  | nil => exact Or.inl rfl
  | cons l rest ih =>
      rw [topPix_cons]
      by_cases hl : l.1 x y
      · exact Or.inr ⟨l, by simp, by simp [hl]⟩
      · rcases ih with h | ⟨l', hl', h⟩
        · exact Or.inl (by simp [hl, h])
        · exact Or.inr ⟨l', by simp [hl'], by simp [hl, h]⟩

lemma topPix_of_hit (L : List ((Int → Int → Bool) × Color)) (base : Color) (x y : Int)
    (h : ∃ l ∈ L, l.1 x y = true) : ∃ l ∈ L, topPix L base x y = l.2 := by
  induction L with
  | nil => simp at h
  | cons l rest ih =>
      rw [topPix_cons]
      by_cases hl : l.1 x y
      · exact ⟨l, by simp, by simp [hl]⟩
      · obtain ⟨l', hl', hr⟩ := h
        rcases List.mem_cons.mp hl' with rfl | hl'
        · simp [hr] at hl
        · obtain ⟨l'', h1, h2⟩ := ih ⟨l', hl', hr⟩
          exact ⟨l'', by simp [h1], by simp [hl, h2]⟩

lemma pix_eq (size : Nat) (x y : Int) :
    (create_family_health_icon size).pix x y = topPix (layers size) (0, 0, 0, 0) x y := rfl

lemma create_width (size : Nat) : (create_family_health_icon size).width = size := rfl

lemma create_height (size : Nat) : (create_family_health_icon size).height = size := rfl

/-! Claims. -/

/-- C1: for every size `n`, `create_family_health_icon(n)` returns an RGBA
image of exact dimensions `n × n` (in particular for every positive `n`). -/
theorem C1_render_dimensions (size : Nat) :
    (create_family_health_icon size).width = size ∧
      (create_family_health_icon size).height = size := ⟨rfl, rfl⟩

/-- C2, counterexample: at size 1024 the pixel `(452, 590)` lies in the heart
as the spec describes it (disc of radius 60 centered at `(452, 590)`), but the
code's heart does not contain it — the rendered pixel there is background
blue, not red. -/
theorem C2_counterexample :
    heartRegionClaimed 1024 452 590 = true ∧ heartRegion 1024 452 590 = false ∧
      (create_family_health_icon 1024).pix 452 590 = (74, 144, 226, 255) := by
  refine ⟨by decide, by decide, by decide⟩

/-- C2, amended: the heart consists of two discs of diameter `60·s` — bounding
boxes from `(452·s, 590·s)` to `(512·s, 650·s)` and from `(512·s, 590·s)` to
`(572·s, 650·s)`, i.e. radius `30·s` centered at `(482·s, 620·s)` and
`(542·s, 620·s)` — plus the triangle with vertices `(512·s, 650·s)`,
`(452·s, 710·s)`, `(572·s, 710·s)`, all filled opaque red `(255,107,107,255)`
(coordinates truncated as the code computes them): a pixel of the final image
is red exactly when it lies in this heart region and not under the
later-drawn cross. -/
theorem C2_heart_region_amended (size : Nat) (x y : Int) :
    (create_family_health_icon size).pix x y = (255, 107, 107, 255) ↔
      (heartRegion size x y = true ∧ crossRegion size x y = false) := by
  have hsplit : layers size =
      [(crossHRegion size, cross_color), (crossVRegion size, cross_color)] ++
        ([(heartTriRegion size, heart_color), (heartEllipse2Region size, heart_color),
          (heartEllipse1Region size, heart_color)] ++
          [(child2BodyRegion size, white), (child2HeadRegion size, white),
           (child1BodyRegion size, white), (child1HeadRegion size, white),
           (parent2BodyRegion size, white), (parent2HeadRegion size, white),
           (parent1BodyRegion size, white), (parent1HeadRegion size, white),
           (bgRegion size, bg_color)]) := rfl
  rw [pix_eq, hsplit, topPix_append, topPix_append]
  by_cases hcross : crossRegion size x y = true
  · obtain ⟨l, hl, h⟩ := topPix_of_hit _ _ x y
      (show ∃ l ∈ [(crossHRegion size, cross_color), (crossVRegion size, cross_color)],
          l.1 x y = true by
        simp only [crossRegion, Bool.or_eq_true] at hcross
        rcases hcross with h | h
        · exact ⟨(crossVRegion size, cross_color), by simp, h⟩
        · exact ⟨(crossHRegion size, cross_color), by simp, h⟩)
    rw [h]
    have hlc : l.2 = cross_color := by
      simp only [List.mem_cons, List.not_mem_nil, or_false] at hl
      rcases hl with rfl | rfl <;> rfl
    rw [hlc]
    simp [cross_color, hcross]
  · obtain ⟨hV, hH⟩ : crossVRegion size x y = false ∧ crossHRegion size x y = false := by
      simp only [crossRegion, Bool.or_eq_true, not_or, Bool.not_eq_true] at hcross
      exact hcross
    rw [topPix_of_none _ _ x y (by
      intro l hl
      simp only [List.mem_cons, List.not_mem_nil, or_false] at hl
      rcases hl with rfl | rfl
      · exact hH
      · exact hV)]
    by_cases hheart : heartRegion size x y = true
    · obtain ⟨l, hl, h⟩ := topPix_of_hit _ _ x y
        (show ∃ l ∈ [(heartTriRegion size, heart_color), (heartEllipse2Region size, heart_color),
            (heartEllipse1Region size, heart_color)], l.1 x y = true by
          simp only [heartRegion, Bool.or_eq_true] at hheart
          rcases hheart with (h | h) | h
          · exact ⟨(heartEllipse1Region size, heart_color), by simp, h⟩
          · exact ⟨(heartEllipse2Region size, heart_color), by simp, h⟩
          · exact ⟨(heartTriRegion size, heart_color), by simp, h⟩)
      rw [h]
      have hlc : l.2 = heart_color := by
        simp only [List.mem_cons, List.not_mem_nil, or_false] at hl
        rcases hl with rfl | rfl | rfl <;> rfl
      rw [hlc]
      simp [heart_color, hheart, crossRegion, hV, hH]
    · obtain ⟨hT, hE2, hE1⟩ : heartTriRegion size x y = false ∧
          heartEllipse2Region size x y = false ∧ heartEllipse1Region size x y = false := by
        simp only [heartRegion, Bool.or_eq_true, not_or, Bool.not_eq_true] at hheart
        exact ⟨hheart.2, hheart.1.2, hheart.1.1⟩
      rw [topPix_of_none _ _ x y (by
        intro l hl
        simp only [List.mem_cons, List.not_mem_nil, or_false] at hl
        rcases hl with rfl | rfl | rfl
        · exact hT
        · exact hE2
        · exact hE1)]
      have hhf : heartRegion size x y = false := by
        simp [heartRegion, hT, hE2, hE1]
      rcases topPix_mem
          [(child2BodyRegion size, white), (child2HeadRegion size, white),
           (child1BodyRegion size, white), (child1HeadRegion size, white),
           (parent2BodyRegion size, white), (parent2HeadRegion size, white),
           (parent1BodyRegion size, white), (parent1HeadRegion size, white),
           (bgRegion size, bg_color)] (0, 0, 0, 0) x y with h | ⟨l, hl, h⟩ <;> rw [h]
      · simp only [hhf, Bool.false_eq_true, false_and, iff_false]
        decide
      · simp only [List.mem_cons, List.not_mem_nil, or_false] at hl
        rcases hl with rfl | rfl | rfl | rfl | rfl | rfl | rfl | rfl | rfl <;>
          simp [white, bg_color, hhf]

/-- C3, counterexample: at size 1024 the pixel `(510, 560)` is covered by a
drawn shape (the cross), yet its alpha component is 230, not 255: Pillow
writes the translucent white fill `(255,255,255,230)` without blending. -/
theorem C3_counterexample :
    coveredRegion 1024 510 560 = true ∧
      (create_family_health_icon 1024).pix 510 560 = (255, 255, 255, 230) ∧
      ((create_family_health_icon 1024).pix 510 560).2.2.2 ≠ 255 := by
  refine ⟨by decide, by decide, by decide⟩

/-- C3, amended: every pixel covered by some drawn shape has alpha 255 or 230
(255 for the blue background disc and the red heart, 230 for the
translucent-white silhouettes and cross, written without blending). -/
theorem C3_alpha_amended (size : Nat) (x y : Int)
    (h : coveredRegion size x y = true) :
    ((create_family_health_icon size).pix x y).2.2.2 = 255 ∨
      ((create_family_health_icon size).pix x y).2.2.2 = 230 := by
  rw [pix_eq]
  obtain ⟨l, hl, he⟩ := topPix_of_hit (layers size) (0, 0, 0, 0) x y
    (by simpa [coveredRegion, List.any_eq_true] using h)
  rw [he]
  simp only [layers, List.mem_cons, List.not_mem_nil, or_false] at hl
  rcases hl with rfl | rfl | rfl | rfl | rfl | rfl | rfl | rfl | rfl | rfl | rfl | rfl | rfl | rfl <;>
    simp [cross_color, heart_color, white, bg_color]

/-- C3, witness for the amended theorem at size 1024, pixel `(512, 512)`. -/
theorem C3_alpha_amended_witness :
    coveredRegion 1024 512 512 = true ∧
      (((create_family_health_icon 1024).pix 512 512).2.2.2 = 255 ∨
        ((create_family_health_icon 1024).pix 512 512).2.2.2 = 230) :=
  ⟨by decide, C3_alpha_amended 1024 512 512 (by decide)⟩

/-- C4, counterexample: the pixel `(512, 512)` of `create_family_health_icon(1024)`
lies on neither the heart nor the cross, and its color is exactly the
background blue `(74,144,226,255)` — contradicting the claim that it falls on
the cross/heart region with a non-background color. -/
theorem C4_counterexample :
    heartRegion 1024 512 512 = false ∧ crossRegion 1024 512 512 = false ∧
      (create_family_health_icon 1024).pix 512 512 = (74, 144, 226, 255) := by
  refine ⟨by decide, by decide, by decide⟩

/-- C4, amended: the pixel `(512, 512)` of `create_family_health_icon(1024)`
lies above the cross/heart region and equals the background blue
`(74,144,226,255)`; a pixel that does lie on the cross, such as `(512, 560)`,
has the non-background color `(255,255,255,230)`. -/
theorem C4_center_pixel_amended :
    (create_family_health_icon 1024).pix 512 512 = (74, 144, 226, 255) ∧
      crossRegion 1024 512 560 = true ∧
      (create_family_health_icon 1024).pix 512 560 = (255, 255, 255, 230) := by
  refine ⟨by decide, by decide, by decide⟩

/-- C5, counterexample: at size 20 (an entry of the fixed list) the corner
coordinates computed by the code differ from the truncations of the spec's
products: the vertical bar's right edge is `int(500·s) + int(24·s) = 9`, while
`int(524·s) = 10`; the pixel `(10, 10)` lies in the spec's vertical bar but
not in the code's. -/
theorem C5_counterexample :
    scaled 500 20 + scaled 24 20 = 9 ∧ scaled 524 20 = 10 ∧
      crossVRegionClaimed 20 10 10 = true ∧ crossVRegion 20 10 10 = false := by
  refine ⟨by decide, by decide, by decide, by decide⟩

/-- C5, amended: the cross is the vertical-bar rectangle from
`(int(500·s), int(520·s))` to `(int(500·s)+int(24·s), int(520·s)+int(80·s))`
and the horizontal-bar rectangle from `(int(500·s)−int(20·s),
int(520·s)+int(20·s))` to `(int(500·s)+int(64·s)−int(20·s),
int(520·s)+int(20·s)+int(24·s))`, both filled translucent white
`(255,255,255,230)` and drawn last, so every cross pixel keeps that color in
the final image; the corner coordinates equal the truncations of the products
`524·s`, `600·s`, `480·s`, `540·s`, `544·s`, `564·s` at size 1024 (though not
at every size in the fixed list). -/
theorem C5_cross_amended :
    (∀ (size : Nat) (x y : Int), crossRegion size x y = true →
        (create_family_health_icon size).pix x y = (255, 255, 255, 230)) ∧
      (∀ x y : Int, crossVRegionClaimed 1024 x y = crossVRegion 1024 x y ∧
        crossHRegionClaimed 1024 x y = crossHRegion 1024 x y) := by
  constructor
  · intro size x y h
    rw [pix_eq]
    simp only [crossRegion, Bool.or_eq_true] at h
    simp only [layers, topPix_cons]
    rcases h with h | h
    · by_cases hh : crossHRegion size x y <;> simp [hh, h, cross_color]
    · simp [h, cross_color]
  · intro x y
    exact ⟨rfl, rfl⟩

/-- C5, witness for the amended theorem: the pixel `(502, 530)` lies on the
cross at size 1024 and is translucent white in the final image. -/
theorem C5_cross_amended_witness :
    crossRegion 1024 502 530 = true ∧
      (create_family_health_icon 1024).pix 502 530 = (255, 255, 255, 230) :=
  ⟨by decide, C5_cross_amended.1 1024 502 530 (by decide)⟩

/-- C6: every pixel of the rendered image (at any size, any coordinate) has an
RGBA value among `(0,0,0,0)`, `(74,144,226,255)`, `(255,255,255,230)`,
`(255,107,107,255)`: color palette closure. -/
theorem C6_palette_closure (size : Nat) (x y : Int) :
    (create_family_health_icon size).pix x y ∈
      [((0, 0, 0, 0) : Color), (74, 144, 226, 255), (255, 255, 255, 230),
        (255, 107, 107, 255)] := by
  rw [pix_eq]
  rcases topPix_mem (layers size) (0, 0, 0, 0) x y with h | ⟨l, hl, h⟩
  · rw [h]; simp
  · rw [h]
    simp only [layers, List.mem_cons, List.not_mem_nil, or_false] at hl
    rcases hl with rfl | rfl | rfl | rfl | rfl | rfl | rfl | rfl | rfl | rfl | rfl | rfl | rfl | rfl <;>
      simp [cross_color, heart_color, white, bg_color]

/-- C7: two runs of the batch step in any two ambient environments (clock,
randomness) write identical files: the renderer and the encoding depend only
on the fixed icon list. -/
theorem C7_batch_deterministic (e₁ e₂ : Env) : mainRun e₁ = mainRun e₂ := rfl

/-- C8: `create_family_health_icon(1)` does not raise: every checked drawing
primitive succeeds at the extreme scale-down, and a 1 × 1 image is returned. -/
theorem C8_render_size1_ok :
    create_family_health_icon_checked 1 = .ok (create_family_health_icon 1) ∧
      (create_family_health_icon 1).width = 1 ∧
      (create_family_health_icon 1).height = 1 := ⟨rfl, rfl, rfl⟩

/-- C9: the list entry with size 83.5 is truncated to the integer 83 before
rendering — the saved image is 83 × 83 — while the output filename remains the
literal string `icon_83.5.png`. -/
theorem C9_fractional_entry :
    pyInt (83.5 : ℚ) = 83 ∧
      (mainImages.map fun p => (p.1, p.2.width, p.2.height))[5]? =
        some ("icon_83.5.png", 83, 83) := by
  have h : pyInt (83.5 : ℚ) = 83 := by
    have hf : (⌊(83.5 : ℚ)⌋ : ℤ) = 83 := by norm_num
    simp [pyInt, hf]
  refine ⟨h, ?_⟩
  simp [mainImages, icon_sizes, create_width, create_height, h]

/-- C10: whenever the corner pixel `(0, 0)` lies outside the disc inscribed in
the square canvas (`cornerOutsideDisc`, which holds exactly for every size at
least 4, in particular 1024), the corner pixel of the rendered icon remains
fully transparent `(0,0,0,0)`: no drawn shape reaches the canvas corner. -/
theorem C10_corner_transparent (size : Nat) (h : cornerOutsideDisc size = true) :
    (create_family_health_icon size).pix 0 0 = (0, 0, 0, 0) := by
  have hq : size ^ 2 < 2 * (size - 1) ^ 2 := by
    simpa [cornerOutsideDisc] using h
  have h4 : 4 ≤ size := by
    rcases Nat.lt_or_ge size 4 with hlt | hge
    · interval_cases size <;> norm_num at hq
    · exact hge
  rw [pix_eq]
  apply topPix_of_none
  intro l hl
  simp only [layers, List.mem_cons, List.not_mem_nil, or_false] at hl
  rcases hl with rfl | rfl | rfl | rfl | rfl | rfl | rfl | rfl | rfl | rfl | rfl | rfl | rfl | rfl <;>
    (rw [← Bool.not_eq_true]; intro hc)
  · simp only [crossHRegion, rectB, Bool.and_eq_true, decide_eq_true_eq] at hc
    have hd := hc.1.1.1
    simp only [scaled] at hd
    omega
  · simp only [crossVRegion, rectB, Bool.and_eq_true, decide_eq_true_eq] at hc
    have hd := hc.1.1.1
    simp only [scaled] at hd
    omega
  · simp only [heartTriRegion, triB, rectB, Bool.and_eq_true, decide_eq_true_eq] at hc
    have hd := hc.1.1.1.1
    simp only [scaled] at hd
    omega
  · simp only [heartEllipse2Region, ellipseB, rectB, Bool.and_eq_true, decide_eq_true_eq] at hc
    have hd := hc.1.1.1.1
    simp only [scaled] at hd
    omega
  · simp only [heartEllipse1Region, ellipseB, rectB, Bool.and_eq_true, decide_eq_true_eq] at hc
    have hd := hc.1.1.1.1
    simp only [scaled] at hd
    omega
  · simp only [child2BodyRegion, rrectB, rectB, Bool.and_eq_true, decide_eq_true_eq] at hc
    have hd := hc.1.1.1.1
    simp only [scaled] at hd
    omega
  · simp only [child2HeadRegion, ellipseB, rectB, Bool.and_eq_true, decide_eq_true_eq] at hc
    have hd := hc.1.1.1.1
    simp only [scaled] at hd
    omega
  · simp only [child1BodyRegion, rrectB, rectB, Bool.and_eq_true, decide_eq_true_eq] at hc
    have hd := hc.1.1.1.1
    simp only [scaled] at hd
    omega
  · simp only [child1HeadRegion, ellipseB, rectB, Bool.and_eq_true, decide_eq_true_eq] at hc
    have hd := hc.1.1.1.1
    simp only [scaled] at hd
    omega
  · simp only [parent2BodyRegion, rrectB, rectB, Bool.and_eq_true, decide_eq_true_eq] at hc
    have hd := hc.1.1.1.1
    simp only [scaled] at hd
    omega
  · simp only [parent2HeadRegion, ellipseB, rectB, Bool.and_eq_true, decide_eq_true_eq] at hc
    have hd := hc.1.1.1.1
    simp only [scaled] at hd
    omega
  · simp only [parent1BodyRegion, rrectB, rectB, Bool.and_eq_true, decide_eq_true_eq] at hc
    have hd := hc.1.1.1.1
    simp only [scaled] at hd
    omega
  · simp only [parent1HeadRegion, ellipseB, rectB, Bool.and_eq_true, decide_eq_true_eq] at hc
    have hd := hc.1.1.1.1
    simp only [scaled] at hd
    rcases Nat.lt_or_ge size 5 with h5 | h5
    · have hs4 : size = 4 := by omega
      subst hs4
      omega
    · omega
  · simp only [bgRegion, ellipseB, rectB, Bool.and_eq_true, decide_eq_true_eq] at hc
    have hq2 := hc.2
    have hs0 : (0 : Int) < (size : Int) := by exact_mod_cast Nat.lt_of_lt_of_le (by norm_num) h4
    nlinarith [hq2, hs0, pow_pos hs0 2]

/-- C10, witness: at size 1024 the corner lies outside the inscribed disc and
the corner pixel of the rendered icon is fully transparent. -/
theorem C10_corner_transparent_witness :
    cornerOutsideDisc 1024 = true ∧
      (create_family_health_icon 1024).pix 0 0 = (0, 0, 0, 0) :=
  ⟨by decide, C10_corner_transparent 1024 (by decide)⟩
